import Mathlib

/-!
Verification of the Egyptian license-plate recognition core
(`lpr_detector.py` / `api/lpr_service.py`).

The two source files define identical post-processing logic; the embedding
below follows `lpr_detector.py` line by line.  Machine floats are embedded
as rationals, images as rectangular grids of rational pixel values, and the
two YOLO models, `cv2.resize` and the two supervision annotators as opaque
function parameters (the spec treats them as black boxes at the interface
`infer(image) → detections`).
-/

/-- A single detection: bounding box `(x_min, y_min, x_max, y_max)`, a
confidence score and a class label — one row of an `sv.Detections`. -/
structure Detection where
  x_min : ℚ
  y_min : ℚ
  x_max : ℚ
  y_max : ℚ
  confidence : ℚ
  class_name : String
deriving DecidableEq

instance : Inhabited Detection := ⟨⟨0, 0, 0, 0, 0, ""⟩⟩

/-- An image: a grid of pixels, a list of rows of rational pixel values. -/
abbrev Image := List (List ℚ)

/-- The `ARABIC_MAPPING` dict: Latin class label → Arabic glyph (27 entries). -/
def ARABIC_MAPPING : List (String × String) :=
  [("a", "أ"), ("b", "ب"), ("kk", "ق"), ("ss", "ص"),
   ("s", "س"), ("tt", "ط"), ("o", "ع"), ("l", "ل"),
   ("r", "ر"), ("n", "ن"), ("m", "م"), ("00", "ه"),
   ("w", "و"), ("y", "ى"), ("g", "ج"), ("d", "د"),
   ("f", "ف"), ("1", "١"), ("2", "٢"), ("3", "٣"),
   ("4", "٤"), ("5", "٥"), ("6", "٦"), ("7", "٧"),
   ("8", "٨"), ("9", "٩"), ("0", "٠")]

/-- `ARABIC_MAPPING.get(letter, "?")`. -/
def map_prediction_to_arabic (letter : String) : String :=
  (ARABIC_MAPPING.lookup letter).getD "?"

/-- Index comparison realising `np.argsort` on `keys`: ascending by key,
ties by original index. -/
def argsortRel (keys : List ℚ) (i j : ℕ) : Prop :=
  keys.getD i 0 < keys.getD j 0 ∨ (keys.getD i 0 = keys.getD j 0 ∧ i ≤ j)

instance (keys : List ℚ) : DecidableRel (argsortRel keys) := fun i j => by
  unfold argsortRel; infer_instance

/-- `np.argsort(keys)`: the indices `0 .. n-1` arranged so that the keys are
ascending (equal keys kept in index order). -/
def argsort (keys : List ℚ) : List ℕ :=
  List.insertionSort (argsortRel keys) (List.range keys.length)

/-- `get_sorted_class_names_in_arabic`: sort detections by right edge
(`xyxy[:, 2]`) descending (`np.argsort(...)[::-1]`), take the class names in
that order, map each through `ARABIC_MAPPING` and join with spaces. -/
def get_sorted_class_names_in_arabic (detections : List Detection) : String :=
  if detections.length = 0 then ""
  else
    let right_x_coords := detections.map (fun d => d.x_max)
    let sorted_indices := (argsort right_x_coords).reverse
    let class_names := detections.map (fun d => d.class_name)
    let sorted_class_names := sorted_indices.map (fun i => class_names.getD i "")
    let arabic_chars := sorted_class_names.map (fun name => map_prediction_to_arabic name)
    String.intercalate " " arabic_chars

/-- `check_license_plate_validity`: detection count must be 6 or 7. -/
def check_license_plate_validity (detections : List Detection) : Bool :=
  detections.length == 6 || detections.length == 7

/-- `get_conf_level`: mean of the confidences, `0.0` on the empty set. -/
def get_conf_level (detections : List Detection) : ℚ :=
  if detections.length = 0 then 0
  else (detections.map (fun d => d.confidence)).sum / detections.length

/-- `astype(int)` on a float coordinate: truncation toward zero. -/
def truncToInt (q : ℚ) : ℤ := if q < 0 then ⌈q⌉ else ⌊q⌋

/-- Resolve one Python slice endpoint against a sequence of length `n`:
a negative index counts from the end, then the result is clamped to `[0, n]`. -/
def sliceIndex (n : ℕ) (i : ℤ) : ℕ :=
  if i < 0 then (i + n).toNat else min i.toNat n

/-- `l[a:b]` with Python slice semantics (unit step). -/
def pySlice {α : Type} (l : List α) (a b : ℤ) : List α :=
  (l.drop (sliceIndex l.length a)).take (sliceIndex l.length b - sliceIndex l.length a)

/-- `image[y_min:y_max, x_min:x_max]` for the truncated box of `d`
(`detections.xyxy[best_idx].astype(int)` followed by the 2-D slice). -/
def cropBox (image : Image) (d : Detection) : Image :=
  (pySlice image (truncToInt d.y_min) (truncToInt d.y_max)).map
    (fun row => pySlice row (truncToInt d.x_min) (truncToInt d.x_max))

/-- `np.argmax`: index of the first occurrence of the maximum (`0` on `[]`). -/
def npArgmax (l : List ℚ) : ℕ := l.findIdx (fun c => decide (∀ x ∈ l, x ≤ c))

/-- The recognizer and its opaque collaborators: the two YOLO models
(`infer(image) → detections`), `cv2.resize` to the 640×640 canonical frame,
and the box/label annotators from supervision. -/
structure Recognizer where
  lpInfer : Image → List Detection
  ocrInfer : Image → List Detection
  resize : Image → Image
  boxAnnotate : Image → List Detection → Image
  labelAnnotate : Image → List Detection → List String → Image

/-- `detect_license_plate`: run the plate model, return `(None, detections)`
when nothing was found, otherwise crop the detection `np.argmax` picks from
the confidence column. -/
def detect_license_plate (R : Recognizer) (image : Image) :
    Option Image × List Detection :=
  let detections := R.lpInfer image
  if detections.length = 0 then (none, detections)
  else
    let best_idx := npArgmax (detections.map (fun d => d.confidence))
    let best := detections.getD best_idx default
    let lp_crop := cropBox image best
    (some lp_crop, detections)

/-- `recognize_characters`: resize the crop to 640×640, run OCR, gate on the
detection count, then assemble text and score confidence. -/
def recognize_characters (R : Recognizer) (lp_crop : Image) :
    String × ℚ × List Detection :=
  let lp_resized := R.resize lp_crop
  let detections := R.ocrInfer lp_resized
  let is_valid := check_license_plate_validity detections
  if is_valid = false then ("", -1, detections)
  else
    let plate_text := get_sorted_class_names_in_arabic detections
    let confidence := get_conf_level detections
    (plate_text, confidence, detections)

/-- `create_annotated_crop`: resize a copy of the crop to the 640×640 frame;
if detections exist, draw boxes and the Arabic labels on it. -/
def create_annotated_crop (R : Recognizer) (lp_crop : Image)
    (detections : List Detection) : Image :=
  let annotated := R.resize lp_crop
  if detections.length = 0 then annotated
  else
    let labels := detections.map (fun d => map_prediction_to_arabic d.class_name)
    let annotated := R.boxAnnotate annotated detections
    R.labelAnnotate annotated detections labels

/-- The result dict of `process_image_array`. -/
structure ResultDict where
  success : Bool
  plate_text : String
  confidence : ℚ
  annotated_crop : Option Image
  error : Option String
deriving DecidableEq

/-- The freshly initialised result dict. -/
def initResult : ResultDict :=
  { success := false, plate_text := "", confidence := 0,
    annotated_crop := none, error := none }

/-- `process_image_array`: the full pipeline on an optional image array
(`None` input is rejected up front). -/
def process_image_array (R : Recognizer) (imageOpt : Option Image) : ResultDict :=
  match imageOpt with
  | none => { initResult with error := some "Invalid image" }
  | some image =>
    let dlp := detect_license_plate R image
    match dlp.1 with
    | none => { initResult with error := some "No license plate detected in the image" }
    | some lp_crop =>
      let rc := recognize_characters R lp_crop
      let plate_text := rc.1
      let confidence := rc.2.1
      let ocr_detections := rc.2.2
      if confidence < 0 then
        { initResult with
            error := some "Could not recognize valid license plate (need 6-7 characters)",
            annotated_crop := some (create_annotated_crop R lp_crop ocr_detections) }
      else
        { success := true, plate_text := plate_text, confidence := confidence,
          annotated_crop := some (create_annotated_crop R lp_crop ocr_detections),
          error := none }

/-- Spec-side definition, for comparison with `cropBox`: clamp the box
coordinates to the image extent, round them to integer pixel indices, then
take the corresponding rows and columns. -/
def specClampRoundCrop (image : Image) (d : Detection) : Image :=
  let h : ℚ := image.length
  let w : ℚ := (image.getD 0 []).length
  let y0 := (round (max 0 (min d.y_min h))).toNat
  let y1 := (round (max 0 (min d.y_max h))).toNat
  let x0 := (round (max 0 (min d.x_min w))).toNat
  let x1 := (round (max 0 (min d.x_max w))).toNat
  ((image.drop y0).take (y1 - y0)).map (fun row => (row.drop x0).take (x1 - x0))

/-- A heap of numpy arrays, for stating which arrays an operation writes.
Array identifiers are indices into the store. -/
abbrev Store := List Image

/-- Store-level `detect_license_plate`: the slice-and-`.copy()` reads the
source array and appends the crop as a fresh array; no existing array is
written. -/
def detect_license_plate_store (R : Recognizer) (store : Store) (imageId : ℕ) :
    Store × Option ℕ × List Detection :=
  let image := store.getD imageId []
  let detections := R.lpInfer image
  if detections.length = 0 then (store, none, detections)
  else
    let best_idx := npArgmax (detections.map (fun d => d.confidence))
    let best := detections.getD best_idx default
    (store ++ [cropBox image best], some store.length, detections)

/-- Store-level `create_annotated_crop`: `cv2.resize(lp_crop.copy(), …)`
allocates a fresh scene array, and the two supervision annotators then draw
on that scene in place (they mutate their `scene` argument). -/
def create_annotated_crop_store (R : Recognizer) (store : Store) (cropId : ℕ)
    (detections : List Detection) : Store × ℕ :=
  let lp_crop := store.getD cropId []
  let scene := R.resize lp_crop
  let store1 := store ++ [scene]
  let sceneId := store.length
  if detections.length = 0 then (store1, sceneId)
  else
    let labels := detections.map (fun d => map_prediction_to_arabic d.class_name)
    let store2 := store1.set sceneId (R.boxAnnotate (store1.getD sceneId []) detections)
    let store3 := store2.set sceneId
      (R.labelAnnotate (store2.getD sceneId []) detections labels)
    (store3, sceneId)

/-- Proof helper: the detections in the order the assembly walks them
(`np.argsort(xyxy[:, 2])[::-1]` materialised as a list of detections). -/
def sortedDetections (ds : List Detection) : List Detection :=
  ((argsort (ds.map (fun d => d.x_max))).reverse).map (fun i => ds.getD i default)

/-- Concrete fixture: a recognizer whose two models always return the given
detection sets, with identity resize and annotators that leave the scene
pixels unchanged. -/
def constRecognizer (lp ocr : List Detection) : Recognizer :=
  { lpInfer := fun _ => lp, ocrInfer := fun _ => ocr, resize := id,
    boxAnnotate := fun scene _ => scene, labelAnnotate := fun scene _ _ => scene }

/-- Concrete fixture: a 4×4 image with pairwise distinct pixel values. -/
def sampleImage : Image :=
  [[0, 1, 2, 3], [4, 5, 6, 7], [8, 9, 10, 11], [12, 13, 14, 15]]

/-- Concrete fixture: a plate detection whose `x_min` is fractional. -/
def plateBox : Detection := ⟨8/5, 0, 4, 4, 9/10, "plate"⟩

/-- Concrete fixture: five character detections (fails the 6-7 gate). -/
def sampleChars5 : List Detection :=
  [⟨0, 0, 1, 1, 1/2, "a"⟩, ⟨2, 0, 3, 1, 1/2, "b"⟩, ⟨4, 0, 5, 1, 1/2, "1"⟩,
   ⟨6, 0, 7, 1, 1/2, "2"⟩, ⟨8, 0, 9, 1, 1/2, "3"⟩]

/-- Concrete fixture: seven character detections with pairwise distinct
right edges and confidences inside `[0, 1]`. -/
def sampleChars7 : List Detection :=
  [⟨0, 0, 10, 1, 9/10, "1"⟩, ⟨40, 0, 50, 1, 7/10, "2"⟩, ⟨80, 0, 90, 1, 4/5, "3"⟩,
   ⟨120, 0, 130, 1, 1, "b"⟩, ⟨160, 0, 170, 1, 1, "n"⟩, ⟨200, 0, 210, 1, 1, "s"⟩,
   ⟨240, 0, 250, 1, 1, "a"⟩]

/-! ### Helper lemmas about the argsort-based ordering -/

theorem argsortRel_trans (keys : List ℚ) : ∀ a b c : ℕ,
    argsortRel keys a b → argsortRel keys b c → argsortRel keys a c := by
  intro a b c hab hbc
  unfold argsortRel at *
  rcases hab with h1 | ⟨e1, le1⟩ <;> rcases hbc with h2 | ⟨e2, le2⟩
  · exact Or.inl (h1.trans h2)
  · exact Or.inl (lt_of_lt_of_le h1 (le_of_eq e2))
  · exact Or.inl (lt_of_le_of_lt (le_of_eq e1) h2)
  · exact Or.inr ⟨e1.trans e2, le1.trans le2⟩

instance (keys : List ℚ) : IsTrans ℕ (argsortRel keys) := ⟨argsortRel_trans keys⟩

instance (keys : List ℚ) : IsTotal ℕ (argsortRel keys) := by
  constructor
  intro a b
  unfold argsortRel
  rcases lt_trichotomy (keys.getD a 0) (keys.getD b 0) with h | h | h
  · exact Or.inl (Or.inl h)
  · rcases Nat.le_total a b with hab | hba
    · exact Or.inl (Or.inr ⟨h, hab⟩)
    · exact Or.inr (Or.inr ⟨h.symm, hba⟩)
  · exact Or.inr (Or.inl h)

theorem map_getD_range {α : Type} (l : List α) (d : α) :
    (List.range l.length).map (fun i => l.getD i d) = l := by
  induction l with
  | nil => rfl
  | cons a t ih =>
    rw [List.length_cons, List.range_succ_eq_map, List.map_cons, List.map_map]
    simp only [Function.comp_def, List.getD_cons_zero, Nat.succ_eq_add_one,
      List.getD_cons_succ]
    rw [ih]

theorem mem_argsort_lt (keys : List ℚ) {i : ℕ} (hi : i ∈ argsort keys) :
    i < keys.length := by
  unfold argsort at hi
  have := (List.perm_insertionSort (argsortRel keys) (List.range keys.length)).mem_iff.mp hi
  simpa using this

theorem sortedDetections_perm (ds : List Detection) : (sortedDetections ds).Perm ds := by
  unfold sortedDetections argsort
  have h1 : ((List.insertionSort (argsortRel (ds.map (fun d => d.x_max)))
      (List.range (ds.map (fun d => d.x_max)).length)).reverse).Perm
      (List.range ds.length) := by
    rw [List.length_map]
    exact (List.reverse_perm _).trans (List.perm_insertionSort _ _)
  have h2 := h1.map (fun i => ds.getD i default)
  rwa [map_getD_range ds default] at h2

theorem sortedDetections_sorted (ds : List Detection) :
    (sortedDetections ds).Pairwise (fun a b => b.x_max ≤ a.x_max) := by
  have hs : List.Pairwise (argsortRel (ds.map (fun d => d.x_max)))
      (argsort (ds.map (fun d => d.x_max))) :=
    List.sorted_insertionSort _ _
  have hrev : List.Pairwise (fun i j => argsortRel (ds.map (fun d => d.x_max)) j i)
      ((argsort (ds.map (fun d => d.x_max))).reverse) :=
    List.pairwise_reverse.mpr hs
  unfold sortedDetections
  rw [List.pairwise_map]
  refine hrev.imp_of_mem ?_
  intro i j hi hj hrel
  have hi' : i < ds.length := by
    have := mem_argsort_lt _ (List.mem_reverse.mp hi)
    simpa using this
  have hj' : j < ds.length := by
    have := mem_argsort_lt _ (List.mem_reverse.mp hj)
    simpa using this
  have hkey : ∀ k, k < ds.length →
      (ds.map (fun d => d.x_max)).getD k 0 = (ds.getD k default).x_max := by
    intro k hk
    rw [List.getD_eq_getElem _ _ (by simpa using hk), List.getD_eq_getElem _ _ hk,
      List.getElem_map]
  unfold argsortRel at hrel
  rcases hrel with h | ⟨h, _⟩
  · rw [hkey j hj', hkey i hi'] at h
    exact le_of_lt h
  · rw [hkey j hj', hkey i hi'] at h
    exact le_of_eq h

theorem assembly_eq_sortedDetections (ds : List Detection) :
    get_sorted_class_names_in_arabic ds =
      String.intercalate " "
        ((sortedDetections ds).map (fun d => map_prediction_to_arabic d.class_name)) := by
  by_cases h : ds.length = 0
  · have hnil : ds = [] := List.length_eq_zero.mp h
    subst hnil
    rfl
  · simp only [get_sorted_class_names_in_arabic, sortedDetections, if_neg h, List.map_map]
    congr 1
    refine List.map_congr_left ?_
    intro i hi
    have hib : i < ds.length := by
      have := mem_argsort_lt _ (List.mem_reverse.mp hi)
      simpa using this
    simp only [Function.comp_def]
    congr 1
    rw [List.getD_eq_getElem _ _ (by simpa using hib), List.getD_eq_getElem _ _ hib,
      List.getElem_map]

theorem sortedDetections_sorted_strict (ds : List Detection)
    (hnd : (ds.map (fun d => d.x_max)).Nodup) :
    (sortedDetections ds).Pairwise (fun a b => b.x_max < a.x_max) := by
  have h1 := sortedDetections_sorted ds
  have hperm := sortedDetections_perm ds
  have hnd2 : ((sortedDetections ds).map (fun d => d.x_max)).Nodup :=
    ((hperm.map (fun d => d.x_max)).nodup_iff).mpr hnd
  have hne : (sortedDetections ds).Pairwise (fun a b => a.x_max ≠ b.x_max) :=
    List.pairwise_map.mp hnd2
  exact (h1.and hne).imp (fun h => lt_of_le_of_ne h.1 (Ne.symm h.2))

/-! ### Claim C1 -/

/-- C1: for every character DetectionSet, the assembled text is obtained by
ordering the detections by the right edge `x_max` of their bounding box in
descending order, resolving each class label through the Character Map
(`map_prediction_to_arabic`, unmapped labels giving the sentinel glyph) and
joining with a single space; on the empty DetectionSet the text is `""`. -/
theorem C1_text_assembly (ds : List Detection) :
    (∃ l : List Detection, l.Perm ds ∧
        l.Pairwise (fun a b => b.x_max ≤ a.x_max) ∧
        get_sorted_class_names_in_arabic ds =
          String.intercalate " " (l.map (fun d => map_prediction_to_arabic d.class_name))) ∧
    get_sorted_class_names_in_arabic [] = "" :=
  ⟨⟨sortedDetections ds, sortedDetections_perm ds, sortedDetections_sorted ds,
      assembly_eq_sortedDetections ds⟩, rfl⟩

/-! ### Claim C2 -/

/-- C2 counterexample: two detections sharing the same `x_max` but carrying
different labels assemble to different strings once the input collection is
reordered, so assembly is not permutation-invariant as claimed. -/
theorem C2_counterexample :
    (([⟨0, 0, 5, 0, 1, "a"⟩, ⟨0, 0, 5, 0, 1, "b"⟩] : List Detection).Perm
        [⟨0, 0, 5, 0, 1, "b"⟩, ⟨0, 0, 5, 0, 1, "a"⟩]) ∧
    get_sorted_class_names_in_arabic [⟨0, 0, 5, 0, 1, "a"⟩, ⟨0, 0, 5, 0, 1, "b"⟩] ≠
      get_sorted_class_names_in_arabic [⟨0, 0, 5, 0, 1, "b"⟩, ⟨0, 0, 5, 0, 1, "a"⟩] := by
  constructor
  · exact List.Perm.swap _ _ _
  · decide

/-- C2 amended: text assembly is permutation-invariant for every character
DetectionSet whose detections have pairwise distinct `x_max` values (on ties
the output depends on the order in which the detections arrive). -/
theorem C2_assembly_perm_invariant (ds ds' : List Detection)
    (hnd : (ds.map (fun d => d.x_max)).Nodup) (hp : ds'.Perm ds) :
    get_sorted_class_names_in_arabic ds' = get_sorted_class_names_in_arabic ds := by
  have hnd2 : (ds'.map (fun d => d.x_max)).Nodup := ((hp.map _).nodup_iff).mpr hnd
  rw [assembly_eq_sortedDetections, assembly_eq_sortedDetections]
  suffices hss : sortedDetections ds' = sortedDetections ds by rw [hss]
  haveI : IsAntisymm Detection (fun a b => b.x_max < a.x_max) :=
    ⟨fun a b h1 h2 => absurd h1 (not_lt.mpr (le_of_lt h2))⟩
  exact List.eq_of_perm_of_sorted
    ((sortedDetections_perm ds').trans (hp.trans (sortedDetections_perm ds).symm))
    (sortedDetections_sorted_strict ds' hnd2) (sortedDetections_sorted_strict ds hnd)

/-- C2 amended, witness: a concrete reordering of two detections with
distinct `x_max` assembles to the same string. -/
theorem C2_assembly_perm_invariant_witness :
    (([⟨0, 0, 1, 0, 1, "a"⟩, ⟨0, 0, 2, 0, 1, "b"⟩] : List Detection).map
        (fun d => d.x_max)).Nodup ∧
    ([⟨0, 0, 2, 0, 1, "b"⟩, ⟨0, 0, 1, 0, 1, "a"⟩] : List Detection).Perm
      [⟨0, 0, 1, 0, 1, "a"⟩, ⟨0, 0, 2, 0, 1, "b"⟩] ∧
    get_sorted_class_names_in_arabic [⟨0, 0, 2, 0, 1, "b"⟩, ⟨0, 0, 1, 0, 1, "a"⟩] =
      get_sorted_class_names_in_arabic [⟨0, 0, 1, 0, 1, "a"⟩, ⟨0, 0, 2, 0, 1, "b"⟩] :=
  ⟨by decide, List.Perm.swap _ _ _,
    C2_assembly_perm_invariant _ _ (by decide) (List.Perm.swap _ _ _)⟩

/-! ### Claim C6 -/

/-- C6: the Confidence Evaluator returns the arithmetic mean of the
confidences and `0` on the empty set; on confidences `[0.9, 0.7, 0.8]` it
returns `0.8` exactly. -/
theorem C6_conf_mean (ds : List Detection) :
    (ds = [] → get_conf_level ds = 0) ∧
    (ds ≠ [] → get_conf_level ds =
      (ds.map (fun d => d.confidence)).sum / ds.length) ∧
    get_conf_level
      [⟨0, 0, 1, 1, 9/10, "a"⟩, ⟨0, 0, 2, 1, 7/10, "b"⟩, ⟨0, 0, 3, 1, 4/5, "g"⟩] =
      4/5 := by
  refine ⟨?_, ?_, by simp [get_conf_level]; norm_num⟩
  · intro h
    subst h
    rfl
  · intro h
    unfold get_conf_level
    rw [if_neg (fun hc => h (List.length_eq_zero.mp hc))]

/-! ### Claim C4 -/

/-- C4: the validity gate accepts a character DetectionSet iff its size is 6
or 7; on any other size `recognize_characters` returns the sentinel
confidence `-1` (outside `[0, 1]`) with the raw DetectionSet and empty text,
and on an accepted set it returns the assembled text with the Confidence
Evaluator's score over the same set. -/
theorem C4_validity_gate (R : Recognizer) (lp_crop : Image) :
    (check_license_plate_validity (R.ocrInfer (R.resize lp_crop)) = true ↔
      (R.ocrInfer (R.resize lp_crop)).length = 6 ∨
        (R.ocrInfer (R.resize lp_crop)).length = 7) ∧
    (check_license_plate_validity (R.ocrInfer (R.resize lp_crop)) = false →
      recognize_characters R lp_crop = ("", -1, R.ocrInfer (R.resize lp_crop)) ∧
        ¬ ((0 : ℚ) ≤ -1 ∧ (-1 : ℚ) ≤ 1)) ∧
    (check_license_plate_validity (R.ocrInfer (R.resize lp_crop)) = true →
      recognize_characters R lp_crop =
        (get_sorted_class_names_in_arabic (R.ocrInfer (R.resize lp_crop)),
          get_conf_level (R.ocrInfer (R.resize lp_crop)),
          R.ocrInfer (R.resize lp_crop))) := by
  refine ⟨?_, ?_, ?_⟩
  · simp [check_license_plate_validity]
  · intro h
    refine ⟨?_, by norm_num⟩
    simp [recognize_characters, h]
  · intro h
    simp [recognize_characters, h]

/-- C4 witness: a five-detection set is rejected with the sentinel. -/
theorem C4_validity_gate_witness :
    check_license_plate_validity
        ((constRecognizer [] sampleChars5).ocrInfer
          ((constRecognizer [] sampleChars5).resize [])) = false ∧
    recognize_characters (constRecognizer [] sampleChars5) [] =
      ("", -1, sampleChars5) :=
  ⟨by decide,
    ((C4_validity_gate (constRecognizer [] sampleChars5) []).2.1 (by decide)).1⟩

/-! ### Claim C5 -/

theorem exists_max_mem (l : List ℚ) (h : l ≠ []) : ∃ c ∈ l, ∀ x ∈ l, x ≤ c := by
  induction l with
  | nil => exact absurd rfl h
  | cons a t ih =>
    cases t with
    | nil =>
      refine ⟨a, List.mem_cons_self a [], ?_⟩
      intro x hx
      rcases List.mem_cons.mp hx with rfl | hx
      · exact le_rfl
      · exact absurd hx (List.not_mem_nil x)
    | cons b t2 =>
      obtain ⟨c, hc, hall⟩ := ih (by simp)
      by_cases hac : a ≤ c
      · refine ⟨c, List.mem_cons_of_mem a hc, ?_⟩
        intro x hx
        rcases List.mem_cons.mp hx with rfl | hx
        · exact hac
        · exact hall x hx
      · refine ⟨a, List.mem_cons_self a _, ?_⟩
        intro x hx
        rcases List.mem_cons.mp hx with rfl | hx
        · exact le_rfl
        · exact le_trans (hall x hx) (le_of_not_le hac)

/-- C5: on an empty plate DetectionSet the Plate Localizer returns
`(None, emptySet)`; otherwise it crops the detection of maximum confidence,
ties broken in favour of the first detection in the model's output order. -/
theorem C5_plate_selection (R : Recognizer) (image : Image) :
    (R.lpInfer image = [] → detect_license_plate R image = (none, R.lpInfer image)) ∧
    (R.lpInfer image ≠ [] → ∃ i : ℕ, i < (R.lpInfer image).length ∧
      (∀ j, j < (R.lpInfer image).length →
        ((R.lpInfer image).getD j default).confidence ≤
          ((R.lpInfer image).getD i default).confidence) ∧
      (∀ j, j < i →
        ((R.lpInfer image).getD j default).confidence <
          ((R.lpInfer image).getD i default).confidence) ∧
      detect_license_plate R image =
        (some (cropBox image ((R.lpInfer image).getD i default)), R.lpInfer image)) := by
  constructor
  · intro h
    simp [detect_license_plate, h]
  · intro h
    have hlen : (R.lpInfer image).length ≠ 0 := fun hc => h (List.length_eq_zero.mp hc)
    have hcne : (R.lpInfer image).map (fun d => d.confidence) ≠ [] := by
      intro hc
      exact h (List.map_eq_nil_iff.mp hc)
    obtain ⟨c, hcmem, hcmax⟩ := exists_max_mem _ hcne
    have hex : ∃ x ∈ (R.lpInfer image).map (fun d => d.confidence),
        (fun x => decide (∀ y ∈ (R.lpInfer image).map (fun d => d.confidence), y ≤ x))
          x = true :=
      ⟨c, hcmem, decide_eq_true (fun y hy => hcmax y hy)⟩
    have hidx : npArgmax ((R.lpInfer image).map (fun d => d.confidence)) <
        ((R.lpInfer image).map (fun d => d.confidence)).length :=
      List.findIdx_lt_length_of_exists hex
    have hilen : npArgmax ((R.lpInfer image).map (fun d => d.confidence)) <
        (R.lpInfer image).length := by simpa using hidx
    have hp : (fun x =>
        decide (∀ y ∈ (R.lpInfer image).map (fun d => d.confidence), y ≤ x))
          (((R.lpInfer image).map (fun d => d.confidence))[npArgmax
            ((R.lpInfer image).map (fun d => d.confidence))]) = true :=
      @List.findIdx_getElem _ _ _ hidx
    have hmax := of_decide_eq_true hp
    refine ⟨npArgmax ((R.lpInfer image).map (fun d => d.confidence)), hilen, ?_, ?_, ?_⟩
    · intro j hj
      have h1 : (R.lpInfer image)[j].confidence ∈
          (R.lpInfer image).map (fun d => d.confidence) :=
        List.mem_map.mpr ⟨_, List.getElem_mem _, rfl⟩
      have h2 := hmax _ h1
      rw [List.getElem_map] at h2
      rw [List.getD_eq_getElem _ _ hj, List.getD_eq_getElem _ _ hilen]
      exact h2
    · intro j hj
      have hjlen : j < ((R.lpInfer image).map (fun d => d.confidence)).length :=
        lt_trans hj hidx
      have hfalse : (fun x =>
          decide (∀ y ∈ (R.lpInfer image).map (fun d => d.confidence), y ≤ x))
            (((R.lpInfer image).map (fun d => d.confidence))[j]) = false :=
        List.not_of_lt_findIdx hj
      have hninc := of_decide_eq_false hfalse
      push_neg at hninc
      obtain ⟨y, hy, hylt⟩ := hninc
      have hcomb := lt_of_lt_of_le hylt (hmax y hy)
      rw [List.getElem_map, List.getElem_map] at hcomb
      rw [List.getD_eq_getElem _ _ (lt_trans hj hilen), List.getD_eq_getElem _ _ hilen]
      exact hcomb
    · simp only [detect_license_plate]
      rw [if_neg hlen, List.getD_eq_getElem _ _ hilen]

/-- C5 witness: a concrete three-detection set selects the strictly best box. -/
theorem C5_plate_selection_witness :
    (constRecognizer
        [⟨0, 0, 1, 1, 1/2, "plate"⟩, ⟨1, 1, 2, 2, 9/10, "plate"⟩,
          ⟨2, 2, 3, 3, 3/10, "plate"⟩] []).lpInfer sampleImage ≠ [] ∧
    (∃ i : ℕ, i < ((constRecognizer
        [⟨0, 0, 1, 1, 1/2, "plate"⟩, ⟨1, 1, 2, 2, 9/10, "plate"⟩,
          ⟨2, 2, 3, 3, 3/10, "plate"⟩] []).lpInfer sampleImage).length ∧
      (∀ j, j < ((constRecognizer
        [⟨0, 0, 1, 1, 1/2, "plate"⟩, ⟨1, 1, 2, 2, 9/10, "plate"⟩,
          ⟨2, 2, 3, 3, 3/10, "plate"⟩] []).lpInfer sampleImage).length →
        (((constRecognizer
        [⟨0, 0, 1, 1, 1/2, "plate"⟩, ⟨1, 1, 2, 2, 9/10, "plate"⟩,
          ⟨2, 2, 3, 3, 3/10, "plate"⟩] []).lpInfer sampleImage).getD j default).confidence ≤
          (((constRecognizer
        [⟨0, 0, 1, 1, 1/2, "plate"⟩, ⟨1, 1, 2, 2, 9/10, "plate"⟩,
          ⟨2, 2, 3, 3, 3/10, "plate"⟩] []).lpInfer sampleImage).getD i default).confidence) ∧
      (∀ j, j < i →
        (((constRecognizer
        [⟨0, 0, 1, 1, 1/2, "plate"⟩, ⟨1, 1, 2, 2, 9/10, "plate"⟩,
          ⟨2, 2, 3, 3, 3/10, "plate"⟩] []).lpInfer sampleImage).getD j default).confidence <
          (((constRecognizer
        [⟨0, 0, 1, 1, 1/2, "plate"⟩, ⟨1, 1, 2, 2, 9/10, "plate"⟩,
          ⟨2, 2, 3, 3, 3/10, "plate"⟩] []).lpInfer sampleImage).getD i default).confidence) ∧
      detect_license_plate (constRecognizer
        [⟨0, 0, 1, 1, 1/2, "plate"⟩, ⟨1, 1, 2, 2, 9/10, "plate"⟩,
          ⟨2, 2, 3, 3, 3/10, "plate"⟩] []) sampleImage =
        (some (cropBox sampleImage (((constRecognizer
        [⟨0, 0, 1, 1, 1/2, "plate"⟩, ⟨1, 1, 2, 2, 9/10, "plate"⟩,
          ⟨2, 2, 3, 3, 3/10, "plate"⟩] []).lpInfer sampleImage).getD i default)),
          (constRecognizer
        [⟨0, 0, 1, 1, 1/2, "plate"⟩, ⟨1, 1, 2, 2, 9/10, "plate"⟩,
          ⟨2, 2, 3, 3, 3/10, "plate"⟩] []).lpInfer sampleImage)) :=
  ⟨by decide,
    (C5_plate_selection (constRecognizer
      [⟨0, 0, 1, 1, 1/2, "plate"⟩, ⟨1, 1, 2, 2, 9/10, "plate"⟩,
        ⟨2, 2, 3, 3, 3/10, "plate"⟩] []) sampleImage).2 (by decide)⟩

/-! ### Claim C8 -/

/-- C8: when the Plate Localizer finds no plate, the pipeline returns a
failure with the exact error string and no annotated image. -/
theorem C8_not_found (R : Recognizer) (image : Image) (h : R.lpInfer image = []) :
    process_image_array R (some image) =
      { success := false, plate_text := "", confidence := 0, annotated_crop := none,
        error := some "No license plate detected in the image" } := by
  simp [process_image_array, detect_license_plate, h, initResult]

/-- C8 witness: the no-plate pipeline outcome on a concrete image. -/
theorem C8_not_found_witness :
    process_image_array (constRecognizer [] []) (some sampleImage) =
      { success := false, plate_text := "", confidence := 0, annotated_crop := none,
        error := some "No license plate detected in the image" } :=
  C8_not_found (constRecognizer [] []) sampleImage rfl

/-! ### Claim C9 -/

/-- C9: neither the Plate Localizer nor the Annotation Renderer writes to any
array that existed before the call: the crop is appended as a fresh array,
and the annotators draw on a freshly allocated copy of the normalized crop
(the fresh slot `store.length`), leaving every pre-existing array — source
image and crop included — unchanged. -/
theorem C9_no_mutation (R : Recognizer) (store : Store) (imageId cropId : ℕ)
    (detections : List Detection) (i : ℕ) (hi : i < store.length) :
    ((detect_license_plate_store R store imageId).1).getD i [] = store.getD i [] ∧
    ((create_annotated_crop_store R store cropId detections).1).getD i [] =
      store.getD i [] ∧
    (create_annotated_crop_store R store cropId detections).2 = store.length := by
  have hne : store.length ≠ i := fun hc => absurd hi (by omega)
  refine ⟨?_, ?_, ?_⟩
  · simp only [detect_license_plate_store]
    split
    · rfl
    · exact List.getD_append _ _ _ _ hi
  · simp only [create_annotated_crop_store]
    split
    · exact List.getD_append _ _ _ _ hi
    · rw [List.getD_eq_getElem?_getD, List.getElem?_set_ne hne,
        List.getElem?_set_ne hne, ← List.getD_eq_getElem?_getD]
      exact List.getD_append _ _ _ _ hi
  · simp only [create_annotated_crop_store]
    split
    · rfl
    · rfl

/-- C9 witness: a one-array store is untouched by both operations. -/
theorem C9_no_mutation_witness :
    ((detect_license_plate_store (constRecognizer [plateBox] []) [sampleImage] 0).1).getD
        0 [] = [sampleImage].getD 0 [] ∧
    ((create_annotated_crop_store (constRecognizer [plateBox] []) [sampleImage] 0
        sampleChars5).1).getD 0 [] = [sampleImage].getD 0 [] ∧
    (create_annotated_crop_store (constRecognizer [plateBox] []) [sampleImage] 0
        sampleChars5).2 = [sampleImage].length :=
  C9_no_mutation (constRecognizer [plateBox] []) [sampleImage] 0 0 sampleChars5 0
    (by decide)

/-! ### Pipeline branch lemmas -/

theorem detect_fst_of_ne_nil (R : Recognizer) (image : Image)
    (h : R.lpInfer image ≠ []) :
    (detect_license_plate R image).1 =
      some (cropBox image ((R.lpInfer image).getD
        (npArgmax ((R.lpInfer image).map (fun d => d.confidence))) default)) := by
  simp only [detect_license_plate]
  rw [if_neg (fun hc => h (List.length_eq_zero.mp hc))]

theorem process_none_eq (R : Recognizer) :
    process_image_array R none = { initResult with error := some "Invalid image" } := rfl

theorem process_not_found_eq (R : Recognizer) (image : Image)
    (h : R.lpInfer image = []) :
    process_image_array R (some image) =
      { initResult with error := some "No license plate detected in the image" } := by
  simp [process_image_array, detect_license_plate, h]

theorem process_of_crop (R : Recognizer) (image : Image) (lp_crop : Image)
    (hd : (detect_license_plate R image).1 = some lp_crop) :
    process_image_array R (some image) =
      if (recognize_characters R lp_crop).2.1 < 0 then
        { initResult with
            error := some "Could not recognize valid license plate (need 6-7 characters)",
            annotated_crop := some (create_annotated_crop R lp_crop
              (recognize_characters R lp_crop).2.2) }
      else
        { success := true, plate_text := (recognize_characters R lp_crop).1,
          confidence := (recognize_characters R lp_crop).2.1,
          annotated_crop := some (create_annotated_crop R lp_crop
            (recognize_characters R lp_crop).2.2),
          error := none } := by
  simp only [process_image_array]
  rw [hd]

/-! ### Claim C3 -/

theorem sliceIndex_le (n : ℕ) (i : ℤ) : sliceIndex n i ≤ n := by
  unfold sliceIndex
  split
  · exact Int.toNat_le.mpr (by omega)
  · exact min_le_right _ _

theorem cropBox_subimage (image : Image) (w : ℕ)
    (hrect : ∀ row ∈ image, row.length = w) (d : Detection) :
    ∃ y0 x0, y0 + (cropBox image d).length ≤ image.length ∧
      (∀ row ∈ cropBox image d, x0 + row.length ≤ w) ∧
      (∀ i j, i < (cropBox image d).length →
        j < ((cropBox image d).getD i []).length →
        ((cropBox image d).getD i []).getD j 0 =
          (image.getD (y0 + i) []).getD (x0 + j) 0) := by
  have hsy := sliceIndex_le image.length (truncToInt d.y_min)
  have hsx := sliceIndex_le w (truncToInt d.x_min)
  have hlen1 : (cropBox image d).length =
      min (sliceIndex image.length (truncToInt d.y_max) -
          sliceIndex image.length (truncToInt d.y_min))
        (image.length - sliceIndex image.length (truncToInt d.y_min)) := by
    simp only [cropBox, pySlice, List.length_map, List.length_take, List.length_drop]
  refine ⟨sliceIndex image.length (truncToInt d.y_min),
    sliceIndex w (truncToInt d.x_min), by omega, ?_, ?_⟩
  · intro row hrow
    simp only [cropBox, pySlice] at hrow
    obtain ⟨r, hr, rfl⟩ := List.mem_map.mp hrow
    have hrim : r ∈ image := List.mem_of_mem_drop (List.mem_of_mem_take hr)
    have hrw := hrect r hrim
    simp only [pySlice, List.length_take, List.length_drop, hrw]
    omega
  · intro i j hi hj
    have hiy : sliceIndex image.length (truncToInt d.y_min) + i < image.length := by
      rw [hlen1] at hi
      omega
    have hwlen : (image[sliceIndex image.length (truncToInt d.y_min) + i]).length = w :=
      hrect _ (List.getElem_mem _)
    have hcrop_i : (cropBox image d).getD i [] =
        ((image[sliceIndex image.length (truncToInt d.y_min) + i]).drop
            (sliceIndex w (truncToInt d.x_min))).take
          (sliceIndex w (truncToInt d.x_max) - sliceIndex w (truncToInt d.x_min)) := by
      rw [List.getD_eq_getElem _ _ hi]
      simp only [cropBox, pySlice, List.getElem_map, List.getElem_take, List.getElem_drop]
      rw [hwlen]
    rw [hcrop_i] at hj
    rw [hcrop_i]
    have hj2 : sliceIndex w (truncToInt d.x_min) + j < w := by
      have hj3 := hj
      simp only [List.length_take, List.length_drop, hwlen] at hj3
      omega
    rw [List.getD_eq_getElem _ _ hj, List.getElem_take, List.getElem_drop]
    rw [List.getD_eq_getElem _ _ hiy]
    rw [List.getD_eq_getElem _ _ (lt_of_lt_of_eq hj2 hwlen.symm)]

/-- C3 counterexample: the code truncates the box coordinates toward zero
(`astype(int)`) instead of clamping and rounding them: on a 4×4 image and a
plate box with `x_min = 1.6`, the produced crop starts at column 1 while the
clamp-then-round crop of the claim starts at column 2. -/
theorem C3_counterexample :
    (detect_license_plate (constRecognizer [plateBox] []) sampleImage).1 =
      some (cropBox sampleImage plateBox) ∧
    cropBox sampleImage plateBox = [[1, 2, 3], [5, 6, 7], [9, 10, 11], [13, 14, 15]] ∧
    specClampRoundCrop sampleImage plateBox = [[2, 3], [6, 7], [10, 11], [14, 15]] ∧
    cropBox sampleImage plateBox ≠ specClampRoundCrop sampleImage plateBox := by
  have h1 : cropBox sampleImage plateBox =
      [[1, 2, 3], [5, 6, 7], [9, 10, 11], [13, 14, 15]] := by
    norm_num [cropBox, pySlice, sliceIndex, truncToInt, sampleImage, plateBox]
    rfl
  have h2 : specClampRoundCrop sampleImage plateBox =
      [[2, 3], [6, 7], [10, 11], [14, 15]] := by
    norm_num [specClampRoundCrop, sampleImage, plateBox, round_eq]
    rfl
  refine ⟨?_, h1, h2, ?_⟩
  · rw [detect_fst_of_ne_nil _ _ (by simp [constRecognizer])]
    simp [constRecognizer, npArgmax, List.findIdx_cons]
  · rw [h1, h2]
    decide

/-- C3 amended: the selected box coordinates are truncated toward zero and
the crop is taken with Python slice semantics; for every rectangular image
and non-empty plate DetectionSet the returned crop is a contiguous sub-image
of the input: there are offsets `(y0, x0)` placing every crop pixel on the
corresponding source pixel, with the crop extent inside the image extent. -/
theorem C3_crop_subimage (R : Recognizer) (image : Image) (w : ℕ)
    (hrect : ∀ row ∈ image, row.length = w) (hne : R.lpInfer image ≠ []) :
    ∃ crop y0 x0, (detect_license_plate R image).1 = some crop ∧
      y0 + crop.length ≤ image.length ∧
      (∀ row ∈ crop, x0 + row.length ≤ w) ∧
      (∀ i j, i < crop.length → j < (crop.getD i []).length →
        (crop.getD i []).getD j 0 = (image.getD (y0 + i) []).getD (x0 + j) 0) := by
  obtain ⟨y0, x0, h1, h2, h3⟩ := cropBox_subimage image w hrect
    ((R.lpInfer image).getD
      (npArgmax ((R.lpInfer image).map (fun d => d.confidence))) default)
  exact ⟨_, y0, x0, detect_fst_of_ne_nil R image hne, h1, h2, h3⟩

/-- C3 amended, witness: the sub-image property on a concrete 4×4 image. -/
theorem C3_crop_subimage_witness :
    (∀ row ∈ sampleImage, row.length = 4) ∧
    (constRecognizer [plateBox] []).lpInfer sampleImage ≠ [] ∧
    (∃ crop y0 x0,
      (detect_license_plate (constRecognizer [plateBox] []) sampleImage).1 =
        some crop ∧
      y0 + crop.length ≤ sampleImage.length ∧
      (∀ row ∈ crop, x0 + row.length ≤ 4) ∧
      (∀ i j, i < crop.length → j < (crop.getD i []).length →
        (crop.getD i []).getD j 0 = (sampleImage.getD (y0 + i) []).getD (x0 + j) 0)) :=
  ⟨by decide, by simp [constRecognizer],
    C3_crop_subimage (constRecognizer [plateBox] []) sampleImage 4 (by decide)
      (by simp [constRecognizer])⟩

/-! ### Claim C7 -/

/-- C7: when the plate is localized but the OCR count fails the gate, the
pipeline returns a failure whose error names the expected 6-7 character
range, with an annotated image built from the malformed detections. -/
theorem C7_invalid_count (R : Recognizer) (image : Image)
    (hne : R.lpInfer image ≠ [])
    (hbad : ∀ crop, (detect_license_plate R image).1 = some crop →
      check_license_plate_validity (R.ocrInfer (R.resize crop)) = false) :
    ∃ lp_crop, (detect_license_plate R image).1 = some lp_crop ∧
      process_image_array R (some image) =
        { success := false, plate_text := "", confidence := 0,
          annotated_crop := some (create_annotated_crop R lp_crop
            (R.ocrInfer (R.resize lp_crop))),
          error := some "Could not recognize valid license plate (need 6-7 characters)" } ∧
      (process_image_array R (some image)).annotated_crop.isSome = true := by
  have hd := detect_fst_of_ne_nil R image hne
  have hb := hbad _ hd
  have hrec : recognize_characters R (cropBox image ((R.lpInfer image).getD
      (npArgmax ((R.lpInfer image).map (fun d => d.confidence))) default)) =
      ("", -1, R.ocrInfer (R.resize (cropBox image ((R.lpInfer image).getD
        (npArgmax ((R.lpInfer image).map (fun d => d.confidence))) default)))) := by
    simp only [recognize_characters]
    rw [hb]
    rfl
  refine ⟨_, hd, ?_, ?_⟩ <;>
  · rw [process_of_crop R image _ hd, hrec]
    norm_num [initResult]

/-- C7 witness: a five-character OCR outcome on a localized plate. -/
theorem C7_invalid_count_witness :
    (constRecognizer [plateBox] sampleChars5).lpInfer sampleImage ≠ [] ∧
    (∃ lp_crop,
      (detect_license_plate (constRecognizer [plateBox] sampleChars5) sampleImage).1 =
        some lp_crop ∧
      process_image_array (constRecognizer [plateBox] sampleChars5) (some sampleImage) =
        { success := false, plate_text := "", confidence := 0,
          annotated_crop := some (create_annotated_crop
            (constRecognizer [plateBox] sampleChars5) lp_crop
            ((constRecognizer [plateBox] sampleChars5).ocrInfer
              ((constRecognizer [plateBox] sampleChars5).resize lp_crop))),
          error := some "Could not recognize valid license plate (need 6-7 characters)" } ∧
      (process_image_array (constRecognizer [plateBox] sampleChars5)
          (some sampleImage)).annotated_crop.isSome = true) :=
  ⟨by decide,
    C7_invalid_count (constRecognizer [plateBox] sampleChars5) sampleImage
      (by decide) (fun crop _ => rfl)⟩

/-! ### Claim C10 -/

theorem get_conf_level_bounds (ds : List Detection) (hne : ds ≠ [])
    (h : ∀ d ∈ ds, 0 ≤ d.confidence ∧ d.confidence ≤ 1) :
    0 ≤ get_conf_level ds ∧ get_conf_level ds ≤ 1 := by
  have hlen : ds.length ≠ 0 := fun hc => hne (List.length_eq_zero.mp hc)
  have hpos : (0 : ℚ) < ds.length := by
    exact_mod_cast Nat.pos_of_ne_zero hlen
  unfold get_conf_level
  rw [if_neg hlen]
  constructor
  · apply div_nonneg _ (le_of_lt hpos)
    apply List.sum_nonneg
    intro x hx
    obtain ⟨d, hd, rfl⟩ := List.mem_map.mp hx
    exact (h d hd).1
  · rw [div_le_one hpos]
    calc (ds.map (fun d => d.confidence)).sum
        ≤ (ds.map (fun d => d.confidence)).length • (1 : ℚ) := by
          apply List.sum_le_card_nsmul
          intro x hx
          obtain ⟨d, hd, rfl⟩ := List.mem_map.mp hx
          exact (h d hd).2
      _ = ds.length := by simp

/-- C10: a failure result always carries empty text and confidence `0` (the
internal sentinel `-1` is never exposed), and a success result carries the
mean OCR confidence, which lies in `[0, 1]` whenever the detector respects
the `[0, 1]` confidence invariant of the data model. -/
theorem C10_result_invariant (R : Recognizer) (imageOpt : Option Image)
    (h01 : ∀ img : Image, ∀ d ∈ R.ocrInfer img, 0 ≤ d.confidence ∧ d.confidence ≤ 1) :
    ((process_image_array R imageOpt).success = false →
      (process_image_array R imageOpt).plate_text = "" ∧
        (process_image_array R imageOpt).confidence = 0) ∧
    ((process_image_array R imageOpt).success = true →
      ∃ image lp_crop, imageOpt = some image ∧
        (detect_license_plate R image).1 = some lp_crop ∧
        ((R.ocrInfer (R.resize lp_crop)).length = 6 ∨
          (R.ocrInfer (R.resize lp_crop)).length = 7) ∧
        (process_image_array R imageOpt).confidence =
          get_conf_level (R.ocrInfer (R.resize lp_crop)) ∧
        0 ≤ (process_image_array R imageOpt).confidence ∧
        (process_image_array R imageOpt).confidence ≤ 1) := by
  cases imageOpt with
  | none =>
    rw [process_none_eq]
    exact ⟨fun _ => ⟨rfl, rfl⟩, fun hs => absurd hs (by simp [initResult])⟩
  | some image =>
    by_cases hne : R.lpInfer image = []
    · rw [process_not_found_eq R image hne]
      exact ⟨fun _ => ⟨rfl, rfl⟩, fun hs => absurd hs (by simp [initResult])⟩
    · have hd := detect_fst_of_ne_nil R image hne
      rw [process_of_crop R image _ hd]
      cases hv : check_license_plate_validity (R.ocrInfer (R.resize (cropBox image
        ((R.lpInfer image).getD
          (npArgmax ((R.lpInfer image).map (fun d => d.confidence))) default)))) with
      | false =>
        rw [show recognize_characters R (cropBox image ((R.lpInfer image).getD
            (npArgmax ((R.lpInfer image).map (fun d => d.confidence))) default)) =
            ("", -1, R.ocrInfer (R.resize (cropBox image ((R.lpInfer image).getD
              (npArgmax ((R.lpInfer image).map (fun d => d.confidence))) default))))
          from by simp only [recognize_characters]; rw [hv]; rfl]
        rw [if_pos (by norm_num)]
        exact ⟨fun _ => ⟨rfl, rfl⟩, fun hs => absurd hs (by simp [initResult])⟩
      | true =>
        have hlen67 : (R.ocrInfer (R.resize (cropBox image ((R.lpInfer image).getD
            (npArgmax ((R.lpInfer image).map (fun d => d.confidence)))
              default)))).length = 6 ∨
            (R.ocrInfer (R.resize (cropBox image ((R.lpInfer image).getD
            (npArgmax ((R.lpInfer image).map (fun d => d.confidence)))
              default)))).length = 7 := by
          simpa [check_license_plate_validity] using hv
        have hdsne : R.ocrInfer (R.resize (cropBox image ((R.lpInfer image).getD
            (npArgmax ((R.lpInfer image).map (fun d => d.confidence)))
              default))) ≠ [] := by
          intro hc
          rw [hc] at hlen67
          simp at hlen67
        have hbounds := get_conf_level_bounds _ hdsne (h01 _)
        rw [show recognize_characters R (cropBox image ((R.lpInfer image).getD
            (npArgmax ((R.lpInfer image).map (fun d => d.confidence))) default)) =
            (get_sorted_class_names_in_arabic (R.ocrInfer (R.resize (cropBox image
              ((R.lpInfer image).getD
                (npArgmax ((R.lpInfer image).map (fun d => d.confidence))) default)))),
             get_conf_level (R.ocrInfer (R.resize (cropBox image ((R.lpInfer image).getD
               (npArgmax ((R.lpInfer image).map (fun d => d.confidence))) default)))),
             R.ocrInfer (R.resize (cropBox image ((R.lpInfer image).getD
               (npArgmax ((R.lpInfer image).map (fun d => d.confidence))) default))))
          from by simp only [recognize_characters]; rw [hv]; rfl]
        rw [if_neg (not_lt.mpr hbounds.1)]
        refine ⟨fun hs => absurd hs (by simp), fun _ => ?_⟩
        exact ⟨image, _, rfl, hd, hlen67, rfl, hbounds.1, hbounds.2⟩

/-- C10 witness: a successful run on a concrete seven-character plate. -/
theorem C10_result_invariant_witness :
    ((process_image_array (constRecognizer [plateBox] sampleChars7)
        (some sampleImage)).success = false →
      (process_image_array (constRecognizer [plateBox] sampleChars7)
          (some sampleImage)).plate_text = "" ∧
        (process_image_array (constRecognizer [plateBox] sampleChars7)
            (some sampleImage)).confidence = 0) ∧
    ((process_image_array (constRecognizer [plateBox] sampleChars7)
        (some sampleImage)).success = true →
      ∃ image lp_crop, (some sampleImage : Option Image) = some image ∧
        (detect_license_plate (constRecognizer [plateBox] sampleChars7) image).1 =
          some lp_crop ∧
        (((constRecognizer [plateBox] sampleChars7).ocrInfer
            ((constRecognizer [plateBox] sampleChars7).resize lp_crop)).length = 6 ∨
          ((constRecognizer [plateBox] sampleChars7).ocrInfer
            ((constRecognizer [plateBox] sampleChars7).resize lp_crop)).length = 7) ∧
        (process_image_array (constRecognizer [plateBox] sampleChars7)
            (some sampleImage)).confidence =
          get_conf_level ((constRecognizer [plateBox] sampleChars7).ocrInfer
            ((constRecognizer [plateBox] sampleChars7).resize lp_crop)) ∧
        0 ≤ (process_image_array (constRecognizer [plateBox] sampleChars7)
            (some sampleImage)).confidence ∧
        (process_image_array (constRecognizer [plateBox] sampleChars7)
            (some sampleImage)).confidence ≤ 1) :=
  C10_result_invariant (constRecognizer [plateBox] sampleChars7) (some sampleImage)
    (fun img d hd => by
      simp only [constRecognizer, sampleChars7, List.mem_cons, List.not_mem_nil,
        or_false] at hd
      rcases hd with h | h | h | h | h | h | h <;> · subst h; constructor <;> norm_num)

/-- C6 witness: the mean formula evaluated on a concrete singleton set. -/
theorem C6_conf_mean_witness :
    ([⟨0, 0, 1, 1, 9/10, "a"⟩] : List Detection) ≠ [] ∧
    get_conf_level [⟨0, 0, 1, 1, 9/10, "a"⟩] =
      (([⟨0, 0, 1, 1, 9/10, "a"⟩] : List Detection).map (fun d => d.confidence)).sum /
        (([⟨0, 0, 1, 1, 9/10, "a"⟩] : List Detection).length) :=
  ⟨by decide, (C6_conf_mean _).2.1 (by decide)⟩
